import Mathlib

/-!
Verification of the vexnav tracking subsystem (`src/tracking.rs`).

The Rust source is shallowly embedded over the real numbers.  `f64` values
are modelled as `ℝ`; a fallible computation is modelled as `Option`:
- a rotary sensor or gyroscope reading is an `Option ℝ` (`none` = read fault;
  in the source a wheel-sensor fault panics via `.expect`, a gyro fault is
  recovered by `unwrap_or_else`);
- an estimator position is an `Option Vec2`, where `none` models a
  non-finite (NaN / infinite) `f64` position.  The one place the source can
  produce a non-finite value from finite inputs is the division
  `delta_forward_travel / delta_heading` in `update` when
  `delta_heading == 0`: the `f64` result is then `±inf` or `NaN`, and the
  subsequent multiplications, `sin`, `Vec2::from_polar` and `+=` keep every
  component non-finite, so the committed position is non-finite exactly when
  `delta_heading = 0`.  The embedding makes that case explicit instead of
  using the junk value of real division by zero.

The Rust expression
`self.heading_offset + if ... { gyro } else { kinematic } % FRAC_2_PI`
parses as `heading_offset + ((if ... else ...) % FRAC_2_PI)`: the remainder
applies to the fused value on both branches, and is taken with the constant
`core::f64::consts::FRAC_2_PI = 2/π` (not `2π`).  Rust's `%` on `f64` is the
remainder after division truncated toward zero, embedded below as `frem`.
-/

namespace VexNav

noncomputable section

open Real

/-- The Rust constant `core::f64::consts::FRAC_2_PI`, whose value is `2/π`
(used by the source both to convert sensor rotation to distance and as the
heading wrap modulus). -/
def FRAC_2_PI : ℝ := 2 / π

/-- Truncation toward zero, the rounding used by Rust's `%` on `f64`. -/
def rtrunc (x : ℝ) : ℤ := if 0 ≤ x then ⌊x⌋ else ⌈x⌉

/-- Rust `f64` remainder `a % b`: `a - b * trunc (a / b)`. -/
def frem (a b : ℝ) : ℝ := a - b * (rtrunc (a / b) : ℝ)

/-- The external 2D vector type `math::Vec2`, by value, componentwise. -/
@[ext]
structure Vec2 where
  x : ℝ
  y : ℝ

instance : Add Vec2 := ⟨fun a b => ⟨a.x + b.x, a.y + b.y⟩⟩

theorem Vec2.add_def (a b : Vec2) : a + b = ⟨a.x + b.x, a.y + b.y⟩ := rfl

/-- `Vec2::from_polar(magnitude, angle)`: the vector of the given magnitude
pointing in the given direction (angle in radians). -/
def Vec2.fromPolar (r θ : ℝ) : Vec2 := ⟨r * Real.cos θ, r * Real.sin θ⟩

/-- `TrackingWheel`: a wheel attached to a rotary sensor.  The generic
sensor is modelled by the (fixed) outcome of reading it: `some r` is a
successful reading of `r` radians of shaft rotation, `none` a read fault. -/
structure TrackingWheel where
  sensor : Option ℝ
  wheel_diameter : ℝ
  offset : ℝ
  gearing : Option ℝ

/-- `TrackingWheel::travel`: on a successful sensor read, returns
`(rotation / FRAC_2_PI) * gearing.unwrap_or(1.0) * (wheel_diameter * π)`;
a failed read panics (`.expect`), modelled as `none`. -/
def TrackingWheel.travel (w : TrackingWheel) : Option ℝ :=
  w.sensor.map fun rotation =>
    rotation / FRAC_2_PI * w.gearing.getD 1 * (w.wheel_diameter * π)

/-- `ParallelWheelTracking`: the pose estimator.  `gyro : Option (Option ℝ)`
models the optional gyroscope: the outer layer is presence of the device,
the inner layer the outcome of reading its heading (`none` = fault).
`position : Option Vec2` is `none` when the stored `f64` position has become
non-finite. -/
structure ParallelWheelTracking where
  position : Option Vec2
  left_wheel : TrackingWheel
  right_wheel : TrackingWheel
  gyro : Option (Option ℝ)
  heading_offset : ℝ
  prev_forward_travel : ℝ
  prev_heading : ℝ

/-- `ParallelWheelTracking::new`: seeds `heading_offset` with the initial
heading and both history fields with zero. -/
def ParallelWheelTracking.new (origin : Vec2) (heading : ℝ)
    (left_wheel right_wheel : TrackingWheel) (gyro : Option (Option ℝ)) :
    ParallelWheelTracking :=
  ⟨some origin, left_wheel, right_wheel, gyro, heading, 0, 0⟩

/-- `ParallelWheelTracking::track_width`: the source adds the two signed
offsets as written (`self.left_wheel.offset + self.right_wheel.offset`),
with no absolute values. -/
def ParallelWheelTracking.track_width (s : ParallelWheelTracking) : ℝ :=
  s.left_wheel.offset + s.right_wheel.offset

/-- `Tracking::forward_travel` for `ParallelWheelTracking`:
`(left.travel() + right.travel()) / 2.0`; a wheel-sensor fault panics. -/
def ParallelWheelTracking.forward_travel (s : ParallelWheelTracking) :
    Option ℝ := do
  let l ← s.left_wheel.travel
  let r ← s.right_wheel.travel
  pure ((l + r) / 2)

/-- The kinematic heading expression appearing (twice) in
`ParallelWheelTracking::heading`:
`(right.travel() - left.travel()) / self.track_width()`. -/
def ParallelWheelTracking.kinematic (s : ParallelWheelTracking) : Option ℝ := do
  let r ← s.right_wheel.travel
  let l ← s.left_wheel.travel
  pure ((r - l) / s.track_width)

/-- The fused heading of `ParallelWheelTracking::heading` before the offset
and wrap: the gyroscope heading when one is present and reads successfully,
otherwise the kinematic expression (`unwrap_or_else` fallback, or the `else`
branch when no gyroscope is configured). -/
def ParallelWheelTracking.fused (s : ParallelWheelTracking) : Option ℝ :=
  match s.gyro with
  | some gyroReading =>
    match gyroReading with
    | some gyroHeading => some gyroHeading
    | none => s.kinematic
  | none => s.kinematic

/-- `Tracking::heading` for `ParallelWheelTracking`:
`heading_offset + (fused % FRAC_2_PI)`. -/
def ParallelWheelTracking.heading (s : ParallelWheelTracking) : Option ℝ :=
  s.fused.map fun f => s.heading_offset + frem f FRAC_2_PI

/-- `Tracking::set_heading` for `ParallelWheelTracking`:
`self.heading_offset = heading - self.heading()`. -/
def ParallelWheelTracking.set_heading (s : ParallelWheelTracking)
    (heading : ℝ) : Option ParallelWheelTracking :=
  s.heading.map fun cur => { s with heading_offset := heading - cur }

/-- `Tracking::set_position` for `ParallelWheelTracking`:
`self.position = position`. -/
def ParallelWheelTracking.set_position (s : ParallelWheelTracking)
    (p : Vec2) : ParallelWheelTracking :=
  { s with position := some p }

/-- `Tracking::update` for `ParallelWheelTracking`.  The chord magnitude is
`2.0 * (delta_forward_travel / delta_heading) * (heading / 2.0).sin()` —
note `heading`, the current heading, not `delta_heading`, inside the sine —
and the direction is `(self.prev_heading + delta_heading) / 2.0`.  When
`delta_heading = 0` the division makes the committed position non-finite
(`none`); see the file comment.  Only `position` and `prev_forward_travel`
are written; `prev_heading` is never written by the source. -/
def ParallelWheelTracking.update (s : ParallelWheelTracking) :
    Option ParallelWheelTracking := do
  let forward_travel ← s.forward_travel
  let heading ← s.heading
  let delta_forward_travel := forward_travel - s.prev_forward_travel
  let delta_heading := heading - s.prev_heading
  let chord : Option ℝ :=
    if delta_heading = 0 then none
    else some (2 * (delta_forward_travel / delta_heading) *
      Real.sin (heading / 2))
  pure { s with
    position := s.position.bind fun p => chord.map fun m =>
      p + Vec2.fromPolar m ((s.prev_heading + delta_heading) / 2),
    prev_forward_travel := forward_travel }

/-- States the estimator can actually be in: constructed by `new`, then
modified only by its own operations, while the environment may change the
sensor readings between cycles (a gyroscope reading may change only when a
gyroscope is configured). -/
inductive Reachable : ParallelWheelTracking → Prop
  | construct (origin : Vec2) (heading : ℝ) (lw rw : TrackingWheel)
      (gyro : Option (Option ℝ)) :
      Reachable (ParallelWheelTracking.new origin heading lw rw gyro)
  | environment (s : ParallelWheelTracking) (lr rr : Option ℝ)
      (gr : Option ℝ) :
      Reachable s →
      Reachable { s with
        left_wheel := { s.left_wheel with sensor := lr },
        right_wheel := { s.right_wheel with sensor := rr },
        gyro := s.gyro.map fun _ => gr }
  | setPosition (s : ParallelWheelTracking) (p : Vec2) :
      Reachable s → Reachable (s.set_position p)
  | setHeading (s : ParallelWheelTracking) (h : ℝ)
      (s' : ParallelWheelTracking) :
      Reachable s → s.set_heading h = some s' → Reachable s'
  | step (s s' : ParallelWheelTracking) :
      Reachable s → s.update = some s' → Reachable s'

/-- No operation of the estimator ever writes `prev_heading`, and `new`
seeds it with zero, so it is zero in every reachable state. -/
theorem Reachable.prev_heading_eq_zero {s : ParallelWheelTracking}
    (h : Reachable s) : s.prev_heading = 0 := by
  induction h with
  | construct origin heading lw rw gyro => rfl
  | environment s lr rr gr _ ih => exact ih
  | setPosition s p _ ih => exact ih
  | setHeading s h s' _ hset ih =>
    rcases Option.map_eq_some'.mp hset with ⟨cur, _, rfl⟩
    exact ih
  | step s s' _ hstep ih =>
    rcases hft : s.forward_travel with _ | ft
    · simp [ParallelWheelTracking.update, hft] at hstep
    rcases hh : s.heading with _ | h
    · simp [ParallelWheelTracking.update, hft, hh] at hstep
    simp only [ParallelWheelTracking.update, hft, hh, Option.bind_eq_bind,
      Option.some_bind, Option.pure_def, Option.some.injEq] at hstep
    rw [← hstep]
    exact ih

/-- Helper lemma: `frem 0 b = 0`. -/
theorem frem_zero_left (b : ℝ) : frem 0 b = 0 := by
  simp [frem, rtrunc]

/-- Helper lemma: `frem b b = 0` for `b ≠ 0`. -/
theorem frem_self (b : ℝ) (hb : b ≠ 0) : frem b b = 0 := by
  rw [frem, div_self hb]
  norm_num [rtrunc]

/-- Helper lemma: `FRAC_2_PI` is nonzero. -/
theorem FRAC_2_PI_ne_zero : FRAC_2_PI ≠ 0 := by
  unfold FRAC_2_PI
  positivity

/-- A wheel whose geometry makes `travel` return exactly the raw sensor
rotation: diameter `2/π²`, direct drive. -/
def idealWheel (rotation : ℝ) : TrackingWheel :=
  ⟨some rotation, 2 / π ^ 2, 1, none⟩

/-- Helper lemma: the travel of `idealWheel r` is `r`. -/
theorem idealWheel_travel (r : ℝ) : (idealWheel r).travel = some r := by
  simp only [idealWheel, TrackingWheel.travel, FRAC_2_PI, Option.map_some',
    Option.some.injEq, Option.getD_none]
  have hπ : (π : ℝ) ≠ 0 := Real.pi_ne_zero
  field_simp
  ring

/-- Concrete estimator with wheel offsets `-1` and `1` (track-width
counterexample input). -/
def negOffsetState : ParallelWheelTracking :=
  ParallelWheelTracking.new ⟨0, 0⟩ 0 ⟨some 0, 1, -1, none⟩ ⟨some 0, 1, 1, none⟩
    none

/-- Concrete estimator with both wheel offsets `1` (track-width witness
input). -/
def posOffsetState : ParallelWheelTracking :=
  ParallelWheelTracking.new ⟨0, 0⟩ 0 (idealWheel 0) (idealWheel 0) none

/-- Concrete estimator whose left wheel sensor faults. -/
def faultyLeftState : ParallelWheelTracking :=
  ParallelWheelTracking.new ⟨0, 0⟩ 0 ⟨none, 1, 1, none⟩ (idealWheel 0) none

/-- A wheel with sensor rotation `1`, diameter `1`, no gearing (travel
conversion failing input). -/
def unitWheel : TrackingWheel := ⟨some 1, 1, 0, none⟩

/-- Concrete estimator: initial heading `1`, gyroscope reading `0`, wheel
rotations `0` (used as failing input for `set_heading` and as a witness
state for the arc-chord step). -/
def gyroZeroState : ParallelWheelTracking :=
  ParallelWheelTracking.new ⟨0, 0⟩ 1 (idealWheel 0) (idealWheel 0)
    (some (some 0))

/-- Concrete estimator: initial heading `1/10`, gyroscope reading `0`,
wheel rotations `0` (failing input for the `prev_heading` history
invariant). -/
def smallOffsetState : ParallelWheelTracking :=
  ParallelWheelTracking.new ⟨0, 0⟩ (1 / 10) (idealWheel 0) (idealWheel 0)
    (some (some 0))

/-- Concrete estimator: gyroscope reading `FRAC_2_PI = 2/π`, zero offset
(failing input for the heading wrap). -/
def gyroWrapState : ParallelWheelTracking :=
  ParallelWheelTracking.new ⟨0, 0⟩ 0 (idealWheel 0) (idealWheel 0)
    (some (some FRAC_2_PI))

/-- Concrete estimator for the straight-line scenario: both wheels advance
by `10` units, no gyroscope, initial heading `0`, fresh history. -/
def straightState : ParallelWheelTracking :=
  ParallelWheelTracking.new ⟨0, 0⟩ 0 (idealWheel 10) (idealWheel 10) none

/-- C10: `set_position(p)` stores exactly `p` in `position` and leaves the
wheels, the gyroscope, `heading_offset`, `prev_forward_travel` and
`prev_heading` unchanged, so a subsequent `position()` read returns `p`. -/
theorem C10_set_position_frame (s : ParallelWheelTracking) (p : Vec2) :
    (s.set_position p).position = some p ∧
    (s.set_position p).left_wheel = s.left_wheel ∧
    (s.set_position p).right_wheel = s.right_wheel ∧
    (s.set_position p).gyro = s.gyro ∧
    (s.set_position p).heading_offset = s.heading_offset ∧
    (s.set_position p).prev_forward_travel = s.prev_forward_travel ∧
    (s.set_position p).prev_heading = s.prev_heading :=
  ⟨rfl, rfl, rfl, rfl, rfl, rfl, rfl⟩

/-- C9: for every estimator state, the heading computed with a gyroscope
whose read faults is identical to the heading of the otherwise-identical
estimator with no gyroscope configured — both evaluate the same kinematic
expression. -/
theorem C9_gyro_fault_matches_no_gyro (s : ParallelWheelTracking) :
    ({ s with gyro := some none } : ParallelWheelTracking).heading =
      ({ s with gyro := none } : ParallelWheelTracking).heading := rfl

/-- C8: when either wheel's rotary sensor read faults, `update` aborts
(`.expect` panics before any field is written): no new state is committed,
so position, `heading_offset`, `prev_forward_travel` and `prev_heading`
are all left as they were. -/
theorem C8_sensor_fault_aborts (s : ParallelWheelTracking)
    (h : s.left_wheel.sensor = none ∨ s.right_wheel.sensor = none) :
    s.update = none := by
  rcases h with h | h
  · simp [ParallelWheelTracking.update, ParallelWheelTracking.forward_travel,
      TrackingWheel.travel, h]
  · cases hL : s.left_wheel.sensor <;>
      simp [ParallelWheelTracking.update,
        ParallelWheelTracking.forward_travel, TrackingWheel.travel, h, hL]

/-- Witness for C8 at a concrete faulty-sensor estimator. -/
theorem C8_sensor_fault_aborts_witness : faultyLeftState.update = none :=
  C8_sensor_fault_aborts faultyLeftState (Or.inl rfl)

/-- C7 counterexample: with signed offsets `-1` and `1`, the source's
`track_width` returns `0`, not the sum of magnitudes `2`. -/
theorem C7_track_width_cex :
    negOffsetState.track_width = 0 ∧ |(-1 : ℝ)| + |(1 : ℝ)| = 2 ∧
      negOffsetState.track_width ≠ |(-1 : ℝ)| + |(1 : ℝ)| := by
  refine ⟨?_, ?_, ?_⟩ <;>
    norm_num [negOffsetState, ParallelWheelTracking.new,
      ParallelWheelTracking.track_width]

/-- C7 amended: `track_width` returns the plain signed sum of the two
offsets, which equals the sum of their magnitudes exactly when both offsets
are nonnegative. -/
theorem C7_track_width_abs (s : ParallelWheelTracking)
    (hl : 0 ≤ s.left_wheel.offset) (hr : 0 ≤ s.right_wheel.offset) :
    s.track_width = |s.left_wheel.offset| + |s.right_wheel.offset| := by
  rw [ParallelWheelTracking.track_width, abs_of_nonneg hl, abs_of_nonneg hr]

/-- Witness for the amended C7 at a concrete estimator with offsets 1, 1. -/
theorem C7_track_width_abs_witness :
    posOffsetState.track_width =
      |posOffsetState.left_wheel.offset| +
        |posOffsetState.right_wheel.offset| :=
  C7_track_width_abs posOffsetState
    (by norm_num [posOffsetState, ParallelWheelTracking.new, idealWheel])
    (by norm_num [posOffsetState, ParallelWheelTracking.new, idealWheel])

/-- C4: the source converts rotation to distance with the constant
`FRAC_2_PI = 2/π` instead of one full revolution `2π`: at rotation `1`,
diameter `1`, no gearing, it returns `π²/2`, which differs from the
specified `(1 / (2π)) · 1 · (1 · π) = 1/2` by a factor of `π²`. -/
theorem C4_travel_full_turn_constant :
    unitWheel.travel = some (π ^ 2 / 2) ∧
      π ^ 2 / 2 ≠ 1 / (2 * π) * 1 * (1 * π) := by
  constructor
  · simp only [unitWheel, TrackingWheel.travel, FRAC_2_PI, Option.map_some',
      Option.some.injEq, Option.getD_none]
    have hπ : (π : ℝ) ≠ 0 := Real.pi_ne_zero
    field_simp
    ring
  · have hπ : (π : ℝ) ≠ 0 := Real.pi_ne_zero
    have h3 : (3 : ℝ) < π := Real.pi_gt_three
    have hrhs : (1 : ℝ) / (2 * π) * 1 * (1 * π) = 1 / 2 := by
      field_simp
      ring
    rw [hrhs]
    intro hcontra
    nlinarith

/-- C6: `set_heading` computes `heading - self.heading()` without adding
back the old offset, so on a freshly constructed estimator with initial
heading `1` (hence `heading_offset = 1`) and gyroscope reading `0`,
`set_heading(0)` followed by `heading()` returns `-1`, not `0` (the
`prev_*` history fields are untouched, as the record update shows). -/
theorem C6_set_heading_not_restored :
    gyroZeroState.set_heading 0 =
      some { gyroZeroState with heading_offset := -1 } ∧
    ({ gyroZeroState with heading_offset := (-1 : ℝ) } :
        ParallelWheelTracking).heading = some (-1) ∧
    ((-1 : ℝ) ≠ 0) := by
  refine ⟨?_, ?_, by norm_num⟩
  · norm_num [gyroZeroState, ParallelWheelTracking.new,
      ParallelWheelTracking.set_heading, ParallelWheelTracking.heading,
      ParallelWheelTracking.fused, frem_zero_left]
  · norm_num [gyroZeroState, ParallelWheelTracking.new,
      ParallelWheelTracking.heading, ParallelWheelTracking.fused,
      frem_zero_left]

/-- C5: after wrapping, the reported heading must still be congruent to
`heading_offset + fused` modulo one full revolution `2π`; the source wraps
with `FRAC_2_PI = 2/π` instead.  With offset `0` and fused gyroscope
heading `2/π`, the source reports `0`, and `0` differs from
`heading_offset + fused` by `-2/π`, which is no integer multiple of `2π`;
moreover the wrap constant `2/π` is not `2π`. -/
theorem C5_heading_wrap_constant :
    gyroWrapState.heading = some 0 ∧
    (∀ k : ℤ, (0 : ℝ) - (gyroWrapState.heading_offset + FRAC_2_PI) ≠
      2 * π * k) ∧
    FRAC_2_PI ≠ 2 * π := by
  refine ⟨?_, ?_, ?_⟩
  · norm_num [gyroWrapState, ParallelWheelTracking.new,
      ParallelWheelTracking.heading, ParallelWheelTracking.fused,
      frem_self FRAC_2_PI FRAC_2_PI_ne_zero]
  · intro k hk
    have h3 : (3 : ℝ) < π := Real.pi_gt_three
    have hπ : (π : ℝ) ≠ 0 := Real.pi_ne_zero
    have h1 : (0 : ℝ) - (gyroWrapState.heading_offset + FRAC_2_PI) =
        -(2 / π) := by
      norm_num [gyroWrapState, ParallelWheelTracking.new, FRAC_2_PI]
    rw [h1] at hk
    have key : (-2 : ℝ) = 2 * π ^ 2 * (k : ℝ) := by
      have h2 : -(2 / π) * π = 2 * π * (k : ℝ) * π := by rw [hk]
      calc (-2 : ℝ) = -(2 / π) * π := by field_simp
        _ = 2 * π * (k : ℝ) * π := h2
        _ = 2 * π ^ 2 * (k : ℝ) := by ring
    rcases lt_trichotomy k 0 with hneg | rfl | hpos
    · have hkle : k ≤ -1 := by omega
      have hk1 : (k : ℝ) ≤ -1 := by exact_mod_cast hkle
      nlinarith
    · norm_num at key
    · have hkge : 1 ≤ k := by omega
      have hk1 : (1 : ℝ) ≤ (k : ℝ) := by exact_mod_cast hkge
      nlinarith
  · intro h
    rw [FRAC_2_PI, div_eq_iff Real.pi_ne_zero] at h
    nlinarith [Real.pi_gt_three]

/-- C3: `update` never writes `prev_heading`.  On an estimator whose
computed heading is `1/10`, one `update` call leaves the state unchanged
(in particular `prev_heading` stays `0`) even though the heading it
computed is `1/10 ≠ 0`. -/
theorem C3_prev_heading_not_updated :
    smallOffsetState.update = some smallOffsetState ∧
    smallOffsetState.heading = some (1 / 10) ∧
    smallOffsetState.prev_heading = 0 ∧ ((0 : ℝ) ≠ 1 / 10) := by
  refine ⟨?_, ?_, rfl, by norm_num⟩
  · norm_num [smallOffsetState, ParallelWheelTracking.new,
      ParallelWheelTracking.update, ParallelWheelTracking.forward_travel,
      ParallelWheelTracking.heading, ParallelWheelTracking.fused,
      idealWheel_travel, frem_zero_left, Vec2.fromPolar, Vec2.add_def]
  · norm_num [smallOffsetState, ParallelWheelTracking.new,
      ParallelWheelTracking.heading, ParallelWheelTracking.fused,
      frem_zero_left]

/-- C2: the straight-line scenario (both wheels advance `10` units, no
gyroscope, initial heading `0`).  The source has no degenerate-case guard:
`delta_heading = 0` makes `delta_forward_travel / delta_heading` non-finite
and the committed position non-finite (`none`) — not the specified
displacement of `10` along heading `0`.  The heading itself is `0` before
and after (only `position` and `prev_forward_travel` are written). -/
theorem C2_degenerate_update_nan :
    straightState.update =
      some { straightState with
        position := none,
        prev_forward_travel := 10 } ∧
    straightState.heading = some 0 ∧
    (none : Option Vec2) ≠ some ((⟨0, 0⟩ : Vec2) + Vec2.fromPolar 10 0) := by
  refine ⟨?_, ?_, by simp⟩
  · norm_num [straightState, ParallelWheelTracking.new,
      ParallelWheelTracking.update, ParallelWheelTracking.forward_travel,
      ParallelWheelTracking.heading, ParallelWheelTracking.fused,
      ParallelWheelTracking.kinematic, ParallelWheelTracking.track_width,
      idealWheel_travel, frem_zero_left]
  · norm_num [straightState, ParallelWheelTracking.new,
      ParallelWheelTracking.heading, ParallelWheelTracking.fused,
      ParallelWheelTracking.kinematic, ParallelWheelTracking.track_width,
      idealWheel_travel, frem_zero_left]

/-- C1: on every state the estimator can actually be in (`prev_heading` is
constructor-seeded to zero and never rewritten, see
`Reachable.prev_heading_eq_zero`), an `update` whose heading delta is
nonzero adds to the position exactly the chord vector of magnitude
`2 * (delta_travel / delta_heading) * sin(delta_heading / 2)` in the
direction `prev_heading + delta_heading / 2`, and stores the new forward
travel. -/
theorem C1_update_arc_chord (s : ParallelWheelTracking) (p : Vec2)
    (ft h : ℝ) (hr : Reachable s) (hp : s.position = some p)
    (hft : s.forward_travel = some ft) (hh : s.heading = some h)
    (hdh : h - s.prev_heading ≠ 0) :
    s.update = some { s with
      position := some (p + Vec2.fromPolar
        (2 * ((ft - s.prev_forward_travel) / (h - s.prev_heading)) *
          Real.sin ((h - s.prev_heading) / 2))
        (s.prev_heading + (h - s.prev_heading) / 2)),
      prev_forward_travel := ft } := by
  have h0 : s.prev_heading = 0 := hr.prev_heading_eq_zero
  simp only [ParallelWheelTracking.update, hft, hh, hp,
    Option.bind_eq_bind, Option.some_bind, Option.pure_def, if_neg hdh,
    Option.map_some', Option.some.injEq]
  rw [h0]
  norm_num

/-- Witness for C1 at a concrete reachable state: freshly constructed with
initial heading `1`, gyroscope reading `0`, wheel rotations `0`. -/
theorem C1_update_arc_chord_witness :
    gyroZeroState.update = some { gyroZeroState with
      position := some ((⟨0, 0⟩ : Vec2) + Vec2.fromPolar
        (2 * ((0 - gyroZeroState.prev_forward_travel) /
          (1 - gyroZeroState.prev_heading)) *
          Real.sin ((1 - gyroZeroState.prev_heading) / 2))
        (gyroZeroState.prev_heading + (1 - gyroZeroState.prev_heading) / 2)),
      prev_forward_travel := 0 } :=
  C1_update_arc_chord gyroZeroState ⟨0, 0⟩ 0 1
    (Reachable.construct ⟨0, 0⟩ 1 (idealWheel 0) (idealWheel 0)
      (some (some 0)))
    rfl
    (by simp [gyroZeroState, ParallelWheelTracking.new,
      ParallelWheelTracking.forward_travel, idealWheel_travel])
    (by simp [gyroZeroState, ParallelWheelTracking.new,
      ParallelWheelTracking.heading, ParallelWheelTracking.fused,
      frem_zero_left])
    (by norm_num [gyroZeroState, ParallelWheelTracking.new])

end

end VexNav
